import Mathlib

/-!
Verification of the go-kwin6 library (`kwin.go`): a shallow embedding of its
string handling, IPC-reply parsing, script-execution bridge, query parsing
and mutation-script generation, with theorems settling the specification
claims about them.

Go strings are modeled as `List Char`; Go's `(T, error)` return pairs are
modeled as `Except`, or as `Option T × Option Err` where the code can
return both components; Go runtime panics (out-of-range indexing,
`uuid.MustParse`) are modeled by a dedicated `Outcome.crashed` constructor.
External collaborators (the `encoding/json` decoder, the `/proc` table, the
results of `dbus-send` / `journalctl` process runs, the wall clock) are
passed in as explicit parameters, since the Go code reaches them only
through well-defined call boundaries.
-/

set_option maxRecDepth 100000

namespace GoKwin6

/-- Go strings, modeled as lists of characters. -/
abbrev GoStr := List Char

/-- Convert a Lean string literal to the `GoStr` model. -/
def strOf (s : String) : GoStr := s.toList

/-- Whitespace class used by Go `strings.Fields` / `strings.TrimSpace`
(`unicode.IsSpace` restricted to the ASCII range, which is all that can
occur in the dbus/journal replies handled here). -/
def isSpaceChar (c : Char) : Bool :=
  c == ' ' || c == '\t' || c == '\n' || c == '\r' ||
  c == Char.ofNat 11 || c == Char.ofNat 12

/-- Does `p` occur at the very beginning of `s`? (Go `strings.HasPre` test
used internally by `strings.Replace`.) -/
def listStartsWith : GoStr → GoStr → Bool
  | [], _ => true
  | _ :: _, [] => false
  | p :: ps, c :: cs => p == c && listStartsWith ps cs

/-- Does `pat` occur (contiguously) anywhere in `s`? -/
def subOccurs (pat : GoStr) : GoStr → Bool
  | [] => listStartsWith pat []
  | c :: cs => listStartsWith pat (c :: cs) || subOccurs pat cs

/-- Fuel-indexed left-to-right non-overlapping replacement loop; the fuel is
only a structural-recursion device and is always instantiated with the
length of the subject string. -/
def replFuel (pat rep : GoStr) : Nat → GoStr → GoStr
  | _, [] => []
  | 0, s => s
  | Nat.succ n, c :: cs =>
    if !pat.isEmpty && listStartsWith pat (c :: cs) then
      rep ++ replFuel pat rep n (List.drop (pat.length - 1) cs)
    else
      c :: replFuel pat rep n cs

/-- Go `strings.ReplaceAll s pat rep` for a non-empty pattern: replaces every
non-overlapping occurrence of `pat` in `s`, scanning left to right. -/
def goReplaceAll (s pat rep : GoStr) : GoStr := replFuel pat rep s.length s

/-- Accumulator loop for Go `strings.Fields`. -/
def fieldsAux : GoStr → GoStr → List GoStr
  | [], cur => if cur.isEmpty then [] else [cur.reverse]
  | c :: cs, cur =>
    if isSpaceChar c then
      if cur.isEmpty then fieldsAux cs [] else cur.reverse :: fieldsAux cs []
    else fieldsAux cs (c :: cur)

/-- Go `strings.Fields`: split around runs of whitespace, dropping empties. -/
def goFields (s : GoStr) : List GoStr := fieldsAux s []

/-- Drop leading whitespace. -/
def dropLeadSpace : GoStr → GoStr
  | [] => []
  | c :: cs => if isSpaceChar c then dropLeadSpace cs else c :: cs

/-- Go `strings.TrimSpace`: drop leading and trailing whitespace. -/
def trimSpace (s : GoStr) : GoStr :=
  (dropLeadSpace (dropLeadSpace s).reverse).reverse

/-- Go `strings.Split(s, "/")`: split on every slash; always returns at
least one (possibly empty) piece. -/
def goSplitSlash : GoStr → List GoStr
  | [] => [[]]
  | c :: cs =>
    match goSplitSlash cs, c == '/' with
    | r, true => [] :: r
    | [], false => [[c]]
    | h :: t, false => (c :: h) :: t

/-- Are all characters decimal digits? -/
def allDigits : GoStr → Bool
  | [] => true
  | c :: cs => c.isDigit && allDigits cs

/-- Numeric value of a digit string, most significant first. -/
def digitsToNat (s : GoStr) : Nat :=
  s.foldl (fun a c => a * 10 + (c.toNat - 48)) 0

/-- Go `strconv.Atoi` on a 64-bit platform: optional sign, then one or more
decimal digits, rejecting anything else and values outside the `int64`
range. `none` models a non-nil `error` return. -/
def goAtoi (s : GoStr) : Option Int :=
  let p : Int × GoStr :=
    match s with
    | '+' :: rest => (1, rest)
    | '-' :: rest => (-1, rest)
    | rest => (1, rest)
  if p.2.isEmpty then none
  else if allDigits p.2 then
    let n : Int := p.1 * Int.ofNat (digitsToNat p.2)
    if -(2 ^ 63) ≤ n ∧ n ≤ 2 ^ 63 - 1 then some n else none
  else none

/-- Hexadecimal digit test. -/
def isHexChar (c : Char) : Bool :=
  c.isDigit || (97 ≤ c.toNat && c.toNat ≤ 102) || (65 ≤ c.toNat && c.toNat ≤ 70)

/-- Validity of a canonical 8-4-4-4-12 UUID string, the form produced by the
compositor and accepted by `uuid.Parse` of the google/uuid dependency.
`uuid.MustParse` panics exactly when this is false for the inputs at hand. -/
def uuidOk (s : GoStr) : Bool :=
  s.length == 36 &&
  (List.range 36).all (fun i =>
    if i == 8 || i == 13 || i == 18 || i == 23 then s.getD i ' ' == '-'
    else isHexChar (s.getD i ' '))

/-- Result of a Go computation that can return a value, return an error, or
panic (crash the process). -/
inductive Outcome (α : Type) where
  | ok : α → Outcome α
  | err : GoStr → Outcome α
  | crashed : GoStr → Outcome α
deriving Repr, DecidableEq

/-- Integer pixel coordinate (`Point` of kwin.go). -/
structure Point where
  x : Int
  y : Int
deriving Repr, DecidableEq

/-- Screen geometry rectangle (`Rect` of kwin.go). -/
structure Rect where
  topLeft : Point
  bottomRight : Point
deriving Repr, DecidableEq

/-- `Screen` of kwin.go. The float `PixelRatio` field plays no role in any
claim and is not modeled. -/
structure Screen where
  name : GoStr
  geometry : Rect
  manufacturer : GoStr
  model : GoStr
  serialNumber : GoStr
deriving Repr, DecidableEq

/-- `Desktop` of kwin.go. -/
structure Desktop where
  id : GoStr
  index : Int
  name : GoStr
  x11Number : Int
deriving Repr, DecidableEq

/-- The Go zero value of `Desktop`, produced by indexing a Go map at a
missing key. -/
def zeroDesktop : Desktop :=
  { id := [], index := 0, name := [], x11Number := 0 }

/-- `Window` of kwin.go. The four float geometry fields (x, y, width,
height) play no role in any claim and are not modeled; desktop UUIDs are
carried as validated strings. -/
structure Window where
  id : GoStr
  caption : GoStr
  pid : Int
  cmdLine : GoStr
  appName : GoStr
  fullscreen : Bool
  onAllDesktops : Bool
  keepAbove : Bool
  keepBelow : Bool
  minimized : Bool
  desktopIds : List GoStr
  desktops : List Desktop
  demandsAttention : Bool
deriving Repr, DecidableEq

/-- Fixed error text of the two reply-shape failures in `loadScript`
(the Go code formats the offending output into the message; the model keeps
the fixed part). -/
def scriptLoadFailedMsg : GoStr := strOf ("script load failed")

/-- Fixed error text modeling the `strconv.Atoi` error in `loadScript`. -/
def atoiFailedMsg : GoStr := strOf ("invalid syntax")

/-- `loadScript` of kwin.go, lines 143-164: given the outcome of the
`dbus-send` call (error, or its captured output lines), parse the script
registration number. The reply must be exactly two lines, the second line
must split into exactly two whitespace-separated fields, and the second
field must parse as an integer; otherwise an error (never a default
number) is returned. -/
def loadScript (call : Except GoStr (List GoStr)) : Except GoStr Int :=
  match call with
  | .error e => .error e
  | .ok output =>
    if output.length ≠ 2 then .error scriptLoadFailedMsg
    else
      let sa := goFields (output.getD 1 [])
      if sa.length ≠ 2 then .error scriptLoadFailedMsg
      else
        match goAtoi (sa.getD 1 []) with
        | none => .error atoiFailedMsg
        | some n => .ok n

/-- One run of an external process, as observed by
`callProgramAndReadOutput`: the possible failures of command construction,
pipe setup and start, the lines captured from stdout and stderr, and the
possible abnormal-exit error from `Wait`. -/
structure ProcRun where
  cmdErr : Option GoStr
  pipeErr : Option GoStr
  startErr : Option GoStr
  stdoutLines : List GoStr
  stderrLines : List GoStr
  waitErr : Option GoStr
deriving Repr, DecidableEq

/-- `callProgramAndReadOutput` of kwin.go, lines 99-133, returning the Go
pair `([]string, error)` as `Option (List GoStr) × Option GoStr`: on any
failure, including an abnormal exit reported by `Wait`, the returned slice
is `nil` (`none`) — the lines already captured are printed but discarded. -/
def callProgramAndReadOutput (r : ProcRun) : Option (List GoStr) × Option GoStr :=
  match r.cmdErr with
  | some e => (none, some e)
  | none =>
    match r.pipeErr with
    | some e => (none, some e)
    | none =>
      match r.startErr with
      | some e => (none, some e)
      | none =>
        match r.waitErr with
        | some e => (none, some e)
        | none => (some (r.stdoutLines ++ r.stderrLines), none)

/-- `getJournal` of kwin.go, lines 193-208: run `journalctl` for the time
window and pass its output through, returning `nil` alongside the error on
failure. -/
def getJournal (r : ProcRun) : Option (List GoStr) × Option GoStr :=
  match callProgramAndReadOutput r with
  | (_, some e) => (none, some e)
  | (out, none) => (out, none)

/-- The observable steps of one `loadExecuteAndGetOutput` call, in program
order. `recordStart` and `recordEnd` are the two `time.Now()` reads;
`closeFile` and `removeFile` are the deferred cleanup. -/
inductive BridgeEvent where
  | createTemp
  | writeFile
  | chmod
  | load
  | recordStart
  | runInvoke
  | stopInvoke
  | recordEnd
  | journal
  | closeFile
  | removeFile
deriving Repr, DecidableEq

/-- Outcomes of the external calls made by one `loadExecuteAndGetOutput`
invocation. `loadRes` is the result of `loadScript` (already parsed),
`runErr` and `stopErr` the errors of `runScript` / `stopScript`, and
`journalRes` the `([]string, error)` pair produced by `getJournal`. -/
structure BridgeWorld where
  tempErr : Option GoStr
  writeErr : Option GoStr
  chmodErr : Option GoStr
  loadRes : Except GoStr Int
  runErr : Option GoStr
  stopErr : Option GoStr
  journalRes : Option (List GoStr) × Option GoStr
deriving Repr

/-- Result of one `loadExecuteAndGetOutput` invocation: the returned
`([]string, error)` pair plus the trace of steps that were executed, in
order. -/
structure BridgeExec where
  output : Option (List GoStr)
  errMsg : Option GoStr
  trace : List BridgeEvent
deriving Repr, DecidableEq

/-- `loadExecuteAndGetOutput` of kwin.go, lines 217-271, step by step:
create the temp file (an error here returns before the cleanup `defer` is
installed); write and chmod it; register via `loadScript`; read the start
timestamp; run; on run failure return immediately (no stop); otherwise
stop, read the end timestamp right after `stopScript` returns (before its
error is examined), and on stop failure return; finally query the journal
for the window. The deferred close/remove run on every path after a
successful `CreateTemp`. -/
def runBridge (w : BridgeWorld) : BridgeExec :=
  match w.tempErr with
  | some e => { output := none, errMsg := some e, trace := [.createTemp] }
  | none =>
    match w.writeErr with
    | some e =>
      { output := none, errMsg := some e,
        trace := [.createTemp, .writeFile, .closeFile, .removeFile] }
    | none =>
      match w.chmodErr with
      | some e =>
        { output := none, errMsg := some e,
          trace := [.createTemp, .writeFile, .chmod, .closeFile, .removeFile] }
      | none =>
        match w.loadRes with
        | .error e =>
          { output := none, errMsg := some e,
            trace := [.createTemp, .writeFile, .chmod, .load, .closeFile, .removeFile] }
        | .ok _ =>
          match w.runErr with
          | some e =>
            { output := none, errMsg := some e,
              trace := [.createTemp, .writeFile, .chmod, .load, .recordStart,
                        .runInvoke, .closeFile, .removeFile] }
          | none =>
            match w.stopErr with
            | some e =>
              { output := none, errMsg := some e,
                trace := [.createTemp, .writeFile, .chmod, .load, .recordStart,
                          .runInvoke, .stopInvoke, .recordEnd, .closeFile, .removeFile] }
            | none =>
              match w.journalRes with
              | (_, some e) =>
                { output := none, errMsg := some e,
                  trace := [.createTemp, .writeFile, .chmod, .load, .recordStart,
                            .runInvoke, .stopInvoke, .recordEnd, .journal,
                            .closeFile, .removeFile] }
              | (out, none) =>
                { output := out, errMsg := none,
                  trace := [.createTemp, .writeFile, .chmod, .load, .recordStart,
                            .runInvoke, .stopInvoke, .recordEnd, .journal,
                            .closeFile, .removeFile] }

/-- Position of the first occurrence of an event in a trace. -/
def idxOf (e : BridgeEvent) : List BridgeEvent → Option Nat
  | [] => none
  | x :: xs => if x = e then some 0 else (idxOf e xs).map (fun n => n + 1)

/-- The wall-clock time at which a given step of one
`loadExecuteAndGetOutput` invocation happens: the abstract clock sampled at
the step's position in the execution trace. A monotone clock models the
monotone reading of `time.Now()`. -/
def eventTime (w : BridgeWorld) (clock : Nat → Nat) (e : BridgeEvent) : Option Nat :=
  (idxOf e (runBridge w).trace).map clock

/-- The logging tag `"js: "` stripped from journal lines by the three query
operations. -/
def jsTag : GoStr := strOf ("js: ")

/-- The per-line preprocessing shared by `GetScreens`, `GetDesktops` and
`GetWindows`: `strings.ReplaceAll(s, "js: ", "")`, which removes every
occurrence of the tag anywhere in the line, not only a leading one, and
leaves a line without the tag unchanged. -/
def stripTag (s : GoStr) : GoStr := goReplaceAll s jsTag []

/-- Fixed error text modeling a `json.Unmarshal` failure. -/
def unmarshalFailedMsg : GoStr := strOf ("json unmarshal failed")

/-- Fixed message of the panic raised by `uuid.MustParse` on a string that
`uuid.Parse` rejects. -/
def mustParseCrashMsg : GoStr := strOf ("uuid: Parse: invalid UUID")

/-- Fixed message of the runtime panic raised by indexing an empty slice. -/
def indexCrashMsg : GoStr := strOf ("runtime error: index out of range")

/-- Go map insert (`m[k] = v`): the new binding shadows any previous one. -/
def mapInsert {α : Type} (m : List (GoStr × α)) (k : GoStr) (v : α) : List (GoStr × α) :=
  (k, v) :: m.filter (fun p => p.1 ≠ k)

/-- Go map lookup returning `none` for a missing key. -/
def lookupAssoc {α : Type} : List (GoStr × α) → GoStr → Option α
  | [], _ => none
  | (k2, v) :: rest, k => if k2 = k then some v else lookupAssoc rest k

/-- The parsing loop of `GetScreens` (kwin.go lines 314-323): for each
journal line, strip the logging tag, JSON-decode the remainder (the decoder
stands for `encoding/json`), and key the screen by its name. A decode
failure aborts the whole loop with an error. -/
def getScreensLoop (decode : GoStr → Option Screen) :
    List GoStr → List (GoStr × Screen) → Outcome (List (GoStr × Screen))
  | [], acc => .ok acc
  | s :: rest, acc =>
    match decode (stripTag s) with
    | none => .err unmarshalFailedMsg
    | some d => getScreensLoop decode rest (mapInsert acc d.name d)

/-- The parsing loop of `GetDesktops` (kwin.go lines 344-353): for each
journal line, strip the logging tag, JSON-decode the remainder, then key
the desktop by `uuid.MustParse(d.Id)` — which panics, rather than returning
an error, when the id is not a valid UUID. -/
def getDesktopsLoop (decode : GoStr → Option Desktop) :
    List GoStr → List (GoStr × Desktop) → Outcome (List (GoStr × Desktop))
  | [], acc => .ok acc
  | s :: rest, acc =>
    match decode (stripTag s) with
    | none => .err unmarshalFailedMsg
    | some d =>
      if uuidOk d.id then getDesktopsLoop decode rest (mapInsert acc d.id d)
      else .crashed mustParseCrashMsg

/-- `getProcessCmdLine` of kwin.go, lines 274-283: read
`/proc/<pid>/cmdline` (the table parameter stands for the filesystem read;
`none` is a read error), translate NUL bytes to spaces, and trim outer
whitespace. -/
def getProcessCmdLine (procTable : Int → Option GoStr) (processId : Int) : Option GoStr :=
  match procTable processId with
  | none => none
  | some bytes =>
    some (trimSpace (bytes.map (fun c => if c = Char.ofNat 0 then ' ' else c)))

/-- The desktop-id resolution of `GetWindows` (kwin.go lines 412-414): each
id is looked up in the desktops map, a missing id yielding the Go zero
value of `Desktop`; the loop itself never fails. -/
def resolveDesktops (m : List (GoStr × Desktop)) (ids : List GoStr) : List Desktop :=
  ids.map (fun i => (lookupAssoc m i).getD zeroDesktop)

/-- The `if desktops != nil` block of `GetWindows` (kwin.go lines 411-416):
with a non-nil map the window's `Desktops` field is rebuilt from its
desktop-id list; with a nil map the window is left untouched. -/
def applyDesktopResolution (desktops : Option (List (GoStr × Desktop))) (w : Window) : Window :=
  match desktops with
  | none => w
  | some m => { w with desktops := resolveDesktops m w.desktopIds }

/-- The per-line body of the `GetWindows` loop (kwin.go lines 395-417):
strip the logging tag and JSON-decode; resolve the process command line via
`/proc` (an error aborts with an error return); take field 0 of the
whitespace-split command line — a runtime panic when there is no field;
derive the application name as the last slash-separated component; resolve
desktops when a map was supplied; and finally key the window by
`uuid.MustParse(d.Id)`, a panic on a malformed id. -/
def processWindowLine (decode : GoStr → Option Window) (procTable : Int → Option GoStr)
    (desktops : Option (List (GoStr × Desktop))) (s : GoStr) : Outcome (GoStr × Window) :=
  match decode (stripTag s) with
  | none => .err unmarshalFailedMsg
  | some d =>
    match getProcessCmdLine procTable d.pid with
    | none => .err (strOf ("proc read failed"))
    | some rawCmdLine =>
      match goFields rawCmdLine with
      | [] => .crashed indexCrashMsg
      | cmdLine :: _ =>
        let d1 : Window := { d with cmdLine := cmdLine }
        let saCmdLine := goSplitSlash cmdLine
        let appName := trimSpace (saCmdLine.getLastD [])
        let d2 : Window := { d1 with appName := appName }
        let d3 := applyDesktopResolution desktops d2
        if uuidOk d3.id then .ok (d3.id, d3)
        else .crashed mustParseCrashMsg

/-- The parsing loop of `GetWindows` (kwin.go lines 394-419). -/
def getWindowsLoop (decode : GoStr → Option Window) (procTable : Int → Option GoStr)
    (desktops : Option (List (GoStr × Desktop))) :
    List GoStr → List (GoStr × Window) → Outcome (List (GoStr × Window))
  | [], acc => .ok acc
  | s :: rest, acc =>
    match processWindowLine decode procTable desktops s with
    | .err e => .err e
    | .crashed e => .crashed e
    | .ok kv => getWindowsLoop decode procTable desktops rest (mapInsert acc kv.1 kv.2)

/-- The three queries issued by `GetEnvironment`, in the order they can
appear in its execution trace. -/
inductive EnvQuery where
  | screens
  | desktops
  | windows
deriving Repr, DecidableEq

/-- `Environment` of kwin.go: the three keyed collections. -/
structure EnvironmentModel where
  screens : List (GoStr × Screen)
  desktops : List (GoStr × Desktop)
  windows : List (GoStr × Window)
deriving Repr, DecidableEq

/-- `GetEnvironment` of kwin.go, lines 424-445: query screens, then
desktops, then windows (the windows query receives the desktops map),
returning on the first error. The second component is the trace of queries
actually invoked, in order. -/
def getEnvironment
    (scrRes : Except GoStr (List (GoStr × Screen)))
    (dskRes : Except GoStr (List (GoStr × Desktop)))
    (winRes : List (GoStr × Desktop) → Except GoStr (List (GoStr × Window))) :
    Except GoStr EnvironmentModel × List EnvQuery :=
  match scrRes with
  | .error e => (.error e, [.screens])
  | .ok screens =>
    match dskRes with
    | .error e => (.error e, [.screens, .desktops])
    | .ok desktops =>
      match winRes desktops with
      | .error e => (.error e, [.screens, .desktops, .windows])
      | .ok windows =>
        (.ok { screens := screens, desktops := desktops, windows := windows },
         [.screens, .desktops, .windows])

/-- Go `fmt` rendering of a `bool` operand under the `%s` verb: `%s` is a
string verb, so `fmt` emits its wrong-verb notation `%!s(bool=true)` /
`%!s(bool=false)` instead of the boolean literal. -/
def goFmtSBool (b : Bool) : GoStr :=
  strOf ("%!s(bool=") ++ (if b then strOf ("true") else strOf ("false")) ++ strOf (")")

/-- Segment of the `SetWindowDemandsAttention` template (kwin.go lines
593-607) before the first `%s` verb. -/
def attnSegA : GoStr := strOf ("\n\t\twindowId = \"")

/-- Segment of the `SetWindowDemandsAttention` template between its two
`%s` verbs. -/
def attnSegB : GoStr :=
  strOf ("\";\n\t\tfor (const window of workspace.windowList()) \x7b\n\t\t\tvar w = undefined;\n\t\t\tfor (const window of workspace.windowList()) \x7b\n\t\t\t\twid = window.internalId.toString().replace(/\x7b/, \"\").replace(/\x7d/, \"\");\n\t\t\t\tif (wid === windowId) \x7b\n\t\t\t\t\tw = window;\n\t\t\t\t\tbreak;\n\t\t\t\t\x7d\n\t\t\t\x7d\n\t\t\tif (w) \x7b\n\t\t\t\tw.demandsAttention = ")

/-- Segment of the `SetWindowDemandsAttention` template after the second
`%s` verb. -/
def attnSegC : GoStr := strOf (";\n\t\t\t\x7d\n\t\t\x7d")

/-- The scriptlet text generated by `SetWindowDemandsAttention` (kwin.go
line 608): `fmt.Sprintf(script, w.Id, demandsAttention)` substitutes the
window id (a string, rendered verbatim by `%s`) and the boolean (rendered
by `%s` as fmt wrong-verb notation) positionally into the fixed template. -/
def setWindowDemandsAttentionCmd (windowId : GoStr) (demandsAttention : Bool) : GoStr :=
  attnSegA ++ windowId ++ attnSegB ++ goFmtSBool demandsAttention ++ attnSegC

/-- The assignment statement the spec expects the generated script to
contain for a given boolean value. -/
def attnWantedStmt (b : Bool) : GoStr :=
  strOf ("w.demandsAttention = ") ++ (if b then strOf ("true") else strOf ("false")) ++ strOf (";")

/-- The assignment statement the generated script actually contains. -/
def attnActualStmt (b : Bool) : GoStr :=
  strOf ("w.demandsAttention = ") ++ goFmtSBool b ++ strOf (";")

/- Concrete artifacts used to instantiate the claims below. The decoders
stand for `encoding/json` and agree with it on the concrete lines they are
applied to. -/

/-- A well-formed canonical UUID string. -/
def uuidA : GoStr := strOf ("aaaaaaaa-0001-4001-8001-aaaaaaaaaaaa")

/-- A second well-formed canonical UUID string, distinct from `uuidA`. -/
def uuidB : GoStr := strOf ("bbbbbbbb-0002-4002-8002-bbbbbbbbbbbb")

/-- A concrete desktop record carried under key `uuidA`. -/
def desktopA : Desktop :=
  { id := uuidA, index := 0, name := strOf ("work"), x11Number := 1 }

/-- A `BridgeWorld` in which registration succeeds and the run step fails. -/
def runFailWorld : BridgeWorld :=
  { tempErr := none, writeErr := none, chmodErr := none, loadRes := .ok 5,
    runErr := some (strOf ("run failed")), stopErr := none,
    journalRes := (some [], none) }

/-- A `BridgeWorld` in which every step succeeds. -/
def allOkWorld : BridgeWorld :=
  { tempErr := none, writeErr := none, chmodErr := none, loadRes := .ok 5,
    runErr := none, stopErr := none,
    journalRes := (some [strOf ("js: line")], none) }

/-- The prefix-stripped JSON payload of a desktop record whose id field is
not UUID-shaped. -/
def badDesktopPayload : GoStr :=
  strOf ("\x7b\"id\": \"not-a-uuid\",\"index\": 0,\"name\": \"one\",\"x11Number\": 1\x7d")

/-- The journal line carrying `badDesktopPayload` behind the logging tag. -/
def badDesktopLine : GoStr := jsTag ++ badDesktopPayload

/-- The desktop record `encoding/json` produces from `badDesktopPayload`. -/
def badDesktop : Desktop :=
  { id := strOf ("not-a-uuid"), index := 0, name := strOf ("one"), x11Number := 1 }

/-- Decoder standing for `json.Unmarshal` into `Desktop` on the lines used
here: it maps `badDesktopPayload` to `badDesktop` as `encoding/json` does. -/
def decodeDesktopSample (s : GoStr) : Option Desktop :=
  if s = badDesktopPayload then some badDesktop else none

/-- The prefix-stripped JSON payload of a screen record. -/
def screenPayload : GoStr :=
  strOf ("\x7b\"name\": \"DP-1\",\"manufacturer\": \"Dell\",\"model\": \"U2720Q\",\"serial\": \"ABC123\",\"geometry\": \x7b\"topLeft\": \x7b\"x\":0,\"y\":0\x7d,\"bottomRight\": \x7b\"x\":2560,\"y\":1440\x7d\x7d\x7d")

/-- A journal line whose payload itself contains the logging tag once more
in a quoted string. -/
def taggedScreenPayload : GoStr :=
  strOf ("js: \x7b\"name\": \"DP-js: 1\"\x7d")

/-- The screen record `encoding/json` produces from `screenPayload`. -/
def screenDP1 : Screen :=
  { name := strOf ("DP-1"),
    geometry := { topLeft := { x := 0, y := 0 }, bottomRight := { x := 2560, y := 1440 } },
    manufacturer := strOf ("Dell"), model := strOf ("U2720Q"),
    serialNumber := strOf ("ABC123") }

/-- Decoder standing for `json.Unmarshal` into `Screen` on the lines used
here: it maps `screenPayload` to `screenDP1` as `encoding/json` does. -/
def decodeScreenSample (s : GoStr) : Option Screen :=
  if s = screenPayload then some screenDP1 else none

/-- The prefix-stripped JSON payload of a window record whose owning
process has pid 42 and whose id is a valid UUID. -/
def windowPayload : GoStr :=
  strOf ("\x7b\"id\": \"cccccccc-0003-4003-8003-cccccccccccc\",\"caption\": \"term\",\"pid\": 42,\"desktopIds\": [\"aaaaaaaa-0001-4001-8001-aaaaaaaaaaaa\",\"bbbbbbbb-0002-4002-8002-bbbbbbbbbbbb\"]\x7d")

/-- The window record `encoding/json` produces from `windowPayload`
(unmentioned fields take their zero values). -/
def windowW42 : Window :=
  { id := strOf ("cccccccc-0003-4003-8003-cccccccccccc"), caption := strOf ("term"),
    pid := 42, cmdLine := [], appName := [], fullscreen := false,
    onAllDesktops := false, keepAbove := false, keepBelow := false,
    minimized := false, desktopIds := [uuidA, uuidB], desktops := [],
    demandsAttention := false }

/-- Decoder standing for `json.Unmarshal` into `Window` on the lines used
here: it maps `windowPayload` to `windowW42` as `encoding/json` does. -/
def decodeWindowSample (s : GoStr) : Option Window :=
  if s = windowPayload then some windowW42 else none

/-- A `/proc` table in which pid 42's `cmdline` pseudo-file holds a single
NUL byte, so that after NUL-to-space translation and trimming the command
line is empty. -/
def procTableEmptyCmd (p : Int) : Option GoStr :=
  if p = 42 then some [Char.ofNat 0] else none

/-- A `/proc` table in which pid 42's `cmdline` pseudo-file holds the bytes
of `/usr/bin/konsole` followed by a NUL terminator. -/
def procTableKonsole (p : Int) : Option GoStr :=
  if p = 42 then some (strOf ("/usr/bin/konsole") ++ [Char.ofNat 0]) else none

/-- A dbus reply of the well-formed two-line, two-field shape, registering
number 7. -/
def goodReply : List GoStr :=
  [strOf ("method return time=1 sender=:1.2 -> destination=:1.3 serial=4 reply_serial=2"),
   strOf ("   int32 7")]

/-- A dbus reply whose second line has three whitespace-separated fields. -/
def threeFieldReply : List GoStr :=
  [strOf ("method return time=1 sender=:1.2 -> destination=:1.3 serial=4 reply_serial=2"),
   strOf ("   int32 7 extra")]

/-- A `ProcRun` that captured two stdout lines and then exited abnormally. -/
def abnormalExitRun : ProcRun :=
  { cmdErr := none, pipeErr := none, startErr := none,
    stdoutLines := [strOf ("partial 1"), strOf ("partial 2")],
    stderrLines := [], waitErr := some (strOf ("exit status 1")) }

/-- The prefix-stripped JSON payload of a window record whose id field is
not UUID-shaped. -/
def badWindowPayload : GoStr := strOf ("\x7b\"id\": \"zzz\",\"pid\": 42\x7d")

/-- The window record `encoding/json` produces from `badWindowPayload`. -/
def badWindow : Window :=
  { id := strOf ("zzz"), caption := [], pid := 42, cmdLine := [], appName := [],
    fullscreen := false, onAllDesktops := false, keepAbove := false,
    keepBelow := false, minimized := false, desktopIds := [], desktops := [],
    demandsAttention := false }

/-- Decoder standing for `json.Unmarshal` into `Window` on
`badWindowPayload`. -/
def decodeWindowBadSample (s : GoStr) : Option Window :=
  if s = badWindowPayload then some badWindow else none

/-- If the pattern does not occur in the subject string, the replacement
loop returns the subject unchanged, whatever the fuel. -/
theorem replFuel_no_occur (pat rep : GoStr) :
    ∀ (fuel : Nat) (s : GoStr), subOccurs pat s = false → replFuel pat rep fuel s = s := by
  intro fuel
  induction fuel with
  | zero =>
    intro s h
    cases s <;> rfl
  | succ n ih =>
    intro s h
    cases s with
    | nil => rfl
    | cons c cs =>
      have h2 : listStartsWith pat (c :: cs) = false ∧ subOccurs pat cs = false := by
        simpa [subOccurs] using h
      simp [replFuel, h2.1, ih cs h2.2]

/-- Claim C1, as stated, is false at this input: in a run of
`loadExecuteAndGetOutput` where registration succeeds (number 5) and the
run step fails, the operation returns the run error without ever invoking
`stopScript` — the stop event is absent from the execution trace. -/
theorem claim1_counterexample :
    runFailWorld.loadRes = Except.ok 5 ∧
    (runBridge runFailWorld).errMsg = some (strOf ("run failed")) ∧
    BridgeEvent.stopInvoke ∉ (runBridge runFailWorld).trace :=
  ⟨rfl, by decide, by decide⟩

/-- Claim C1 (amended): in `loadExecuteAndGetOutput`, after a script has
been successfully registered, stop is attempted exactly when the run step
succeeds: when run succeeds, `stopScript` is invoked and the end timestamp
is read immediately after it returns (even before its error is examined);
when run fails, the operation returns the run error without attempting
stop. -/
theorem claim1_theorem (w : BridgeWorld) (n : Int)
    (h1 : w.tempErr = none) (h2 : w.writeErr = none) (h3 : w.chmodErr = none)
    (h4 : w.loadRes = Except.ok n) :
    (w.runErr = none →
      idxOf BridgeEvent.stopInvoke (runBridge w).trace = some 6 ∧
      idxOf BridgeEvent.recordEnd (runBridge w).trace = some 7) ∧
    (∀ e, w.runErr = some e →
      idxOf BridgeEvent.stopInvoke (runBridge w).trace = none ∧
      (runBridge w).errMsg = some e) := by
  obtain ⟨tE, wE, cE, lR, rE, sE, jo, je⟩ := w
  simp only at h1 h2 h3 h4
  subst h1; subst h2; subst h3; subst h4
  constructor
  · intro hr
    simp only at hr
    subst hr
    cases sE <;> cases je <;> exact ⟨rfl, rfl⟩
  · intro e hr
    simp only at hr
    subst hr
    exact ⟨rfl, rfl⟩

/-- Witness for the amended claim C1 at the concrete run-failure world. -/
theorem claim1_witness :
    idxOf BridgeEvent.stopInvoke (runBridge runFailWorld).trace = none ∧
    (runBridge runFailWorld).errMsg = some (strOf ("run failed")) :=
  (claim1_theorem runFailWorld 5 rfl rfl rfl rfl).2 (strOf ("run failed")) rfl

/-- Claim C2, as stated, is false at this input: with the identity clock,
in an all-successful run the start timestamp is read at logical time 4 and
`runScript` is invoked at logical time 5, so the start timestamp is
recorded strictly earlier than run-invocation, not "no earlier than" it. -/
theorem claim2_counterexample :
    eventTime allOkWorld id BridgeEvent.recordStart = some 4 ∧
    eventTime allOkWorld id BridgeEvent.runInvoke = some 5 ∧
    ¬ (5 ≤ 4) :=
  ⟨by decide, by decide, by decide⟩

/-- Claim C2 (amended): for every invocation of `loadExecuteAndGetOutput`
under a monotone clock, whenever the four timed steps all happen, the
journal query window satisfies start ≤ end, the start timestamp is
recorded no later than run-invocation, and the end timestamp is recorded
no earlier than stop-completion. -/
theorem claim2_theorem (w : BridgeWorld) (clock : Nat → Nat) (hm : Monotone clock)
    (ts te tr tp : Nat)
    (hs : eventTime w clock BridgeEvent.recordStart = some ts)
    (he : eventTime w clock BridgeEvent.recordEnd = some te)
    (hr : eventTime w clock BridgeEvent.runInvoke = some tr)
    (hp : eventTime w clock BridgeEvent.stopInvoke = some tp) :
    ts ≤ te ∧ ts ≤ tr ∧ tp ≤ te := by
  obtain ⟨tE, wE, cE, lR, rE, sE, jo, je⟩ := w
  cases tE <;> cases wE <;> cases cE <;> cases lR <;> cases rE <;> cases sE <;> cases je <;>
    first
      | exact Option.noConfusion he
      | exact Option.noConfusion hp
      | (obtain rfl : ts = clock 4 := (Option.some.inj hs).symm
         obtain rfl : te = clock 7 := (Option.some.inj he).symm
         obtain rfl : tr = clock 5 := (Option.some.inj hr).symm
         obtain rfl : tp = clock 6 := (Option.some.inj hp).symm
         exact ⟨hm (by decide), hm (by decide), hm (by decide)⟩)

/-- Witness for the amended claim C2 at the all-successful world with the
identity clock: start time 4, end time 7, run-invocation time 5,
stop-completion time 6. -/
theorem claim2_witness : (4 : Nat) ≤ 7 ∧ (4 : Nat) ≤ 5 ∧ (6 : Nat) ≤ 7 :=
  claim2_theorem allOkWorld id monotone_id 4 7 5 6 rfl rfl rfl rfl

/-- Claim C3, as stated, is false at this input: a journal line whose
record carries the malformed UUID-shaped id `"not-a-uuid"` makes
`GetDesktops` crash the process through `uuid.MustParse` — the outcome is
a crash, not an error return. -/
theorem claim3_counterexample :
    getDesktopsLoop decodeDesktopSample [badDesktopLine] [] =
      Outcome.crashed mustParseCrashMsg := by
  decide

/-- Claim C3 (amended): in `GetDesktops` and `GetWindows`, a record line
whose decoded id field is a malformed UUID-shaped string causes the
operation to crash the process via `uuid.MustParse` (after any per-record
work preceding the key computation), rather than returning an error to the
caller. -/
theorem claim3_theorem :
    (∀ (decode : GoStr → Option Desktop) (s : GoStr) (rest : List GoStr)
        (acc : List (GoStr × Desktop)) (d : Desktop),
        decode (stripTag s) = some d → uuidOk d.id = false →
        getDesktopsLoop decode (s :: rest) acc = Outcome.crashed mustParseCrashMsg) ∧
    (∀ (decode : GoStr → Option Window) (procTable : Int → Option GoStr)
        (dm : Option (List (GoStr × Desktop))) (s : GoStr) (rest : List GoStr)
        (acc : List (GoStr × Window)) (d : Window) (raw f : GoStr) (fs : List GoStr),
        decode (stripTag s) = some d →
        getProcessCmdLine procTable d.pid = some raw →
        goFields raw = f :: fs →
        uuidOk d.id = false →
        getWindowsLoop decode procTable dm (s :: rest) acc =
          Outcome.crashed mustParseCrashMsg) := by
  constructor
  · intro decode s rest acc d hd hu
    simp [getDesktopsLoop, hd, hu]
  · intro decode procTable dm s rest acc d raw f fs hd hp hf hu
    have hpw : processWindowLine decode procTable dm s = Outcome.crashed mustParseCrashMsg := by
      simp only [processWindowLine, hd, hp, hf]
      cases dm <;> simp [applyDesktopResolution, hu]
    simp [getWindowsLoop, hpw]

/-- Witness for the amended claim C3 at a concrete window record whose id
is the malformed string `"zzz"`. -/
theorem claim3_witness :
    getWindowsLoop decodeWindowBadSample procTableKonsole none
      [jsTag ++ badWindowPayload] [] = Outcome.crashed mustParseCrashMsg :=
  claim3_theorem.2 decodeWindowBadSample procTableKonsole none
    (jsTag ++ badWindowPayload) [] [] badWindow
    (strOf ("/usr/bin/konsole")) (strOf ("/usr/bin/konsole")) []
    (by decide) (by decide) (by decide) (by decide)

/-- Claim C4 is right about the intent and wrong about the code: the
template's boolean slot uses the string verb `%s`, so
`fmt.Sprintf(script, w.Id, demandsAttention)` renders the boolean as fmt
wrong-verb notation. The generated script contains the statement
`w.demandsAttention = %!s(bool=true);` (a script syntax error), not the
intended `w.demandsAttention = true;` — for either boolean value. -/
theorem claim4_theorem :
    setWindowDemandsAttentionCmd (strOf ("w1")) true =
      attnSegA ++ strOf ("w1") ++ attnSegB ++ strOf ("%!s(bool=true)") ++ attnSegC ∧
    subOccurs (attnActualStmt true) (setWindowDemandsAttentionCmd (strOf ("w1")) true) = true ∧
    subOccurs (attnWantedStmt true) (setWindowDemandsAttentionCmd (strOf ("w1")) true) = false ∧
    subOccurs (attnWantedStmt false) (setWindowDemandsAttentionCmd (strOf ("w1")) false) = false := by
  refine ⟨by decide, by decide, by decide, by decide⟩

/-- Claim C5: with a non-nil desktops map containing `A` but not `B`, a
window whose desktop-id set is `{A, B}` resolves to exactly the
two-element sequence `[Desktop A, zero-value Desktop]`, and resolution is
total — it never fails on unknown ids, always producing one record per
id. -/
theorem claim5_theorem (m : List (GoStr × Desktop)) (A B : GoStr) (dA : Desktop)
    (w : Window) (hA : lookupAssoc m A = some dA) (hB : lookupAssoc m B = none)
    (hw : w.desktopIds = [A, B]) :
    resolveDesktops m [A, B] = [dA, zeroDesktop] ∧
    (applyDesktopResolution (some m) w).desktops = [dA, zeroDesktop] ∧
    (∀ ids : List GoStr, (resolveDesktops m ids).length = ids.length) := by
  refine ⟨?_, ?_, ?_⟩
  · simp [resolveDesktops, hA, hB]
  · simp [applyDesktopResolution, resolveDesktops, hw, hA, hB]
  · intro ids
    simp [resolveDesktops]

/-- Witness for claim C5 at a concrete one-entry map and the concrete
window whose desktop-id set is `{uuidA, uuidB}`. -/
theorem claim5_witness :
    resolveDesktops [(uuidA, desktopA)] [uuidA, uuidB] = [desktopA, zeroDesktop] ∧
    (applyDesktopResolution (some [(uuidA, desktopA)]) windowW42).desktops =
      [desktopA, zeroDesktop] :=
  ⟨(claim5_theorem [(uuidA, desktopA)] uuidA uuidB desktopA windowW42
      (by decide) (by decide) (by decide)).1,
   (claim5_theorem [(uuidA, desktopA)] uuidA uuidB desktopA windowW42
      (by decide) (by decide) (by decide)).2.1⟩

/-- Claim C6: `loadScript` returns the parsed integer exactly when the
reply is two lines whose second line splits into exactly two
whitespace-separated fields with an integer second field; in every other
case it returns an error, never a default registration number. -/
theorem claim6_theorem (output : List GoStr) :
    (∀ n : Int, loadScript (Except.ok output) = Except.ok n ↔
      (output.length = 2 ∧ (goFields (output.getD 1 [])).length = 2 ∧
        goAtoi ((goFields (output.getD 1 [])).getD 1 []) = some n)) ∧
    ((output.length ≠ 2 ∨ (goFields (output.getD 1 [])).length ≠ 2 ∨
        goAtoi ((goFields (output.getD 1 [])).getD 1 []) = none) →
      ∃ e, loadScript (Except.ok output) = Except.error e) := by
  have key : loadScript (Except.ok output) =
      (if output.length = 2 then
        (if (goFields (output.getD 1 [])).length = 2 then
          (match goAtoi ((goFields (output.getD 1 [])).getD 1 []) with
            | none => Except.error atoiFailedMsg
            | some n => Except.ok n)
        else Except.error scriptLoadFailedMsg)
      else Except.error scriptLoadFailedMsg) := by
    simp only [loadScript, ite_not]
  by_cases h1 : output.length = 2
  · by_cases h2 : (goFields (output.getD 1 [])).length = 2
    · cases hA : goAtoi ((goFields (output.getD 1 [])).getD 1 []) with
      | none =>
        refine ⟨fun n => ?_, fun _ => ⟨atoiFailedMsg, ?_⟩⟩
        · rw [key, if_pos h1, if_pos h2, hA]
          constructor
          · intro he
            exact Except.noConfusion he
          · intro he
            exact Option.noConfusion he.2.2
        · rw [key, if_pos h1, if_pos h2, hA]
      | some m =>
        refine ⟨fun n => ?_, fun h => ?_⟩
        · rw [key, if_pos h1, if_pos h2, hA]
          constructor
          · intro he
            injection he with hmn
            exact ⟨h1, h2, congrArg some hmn⟩
          · intro he
            injection he.2.2 with hmn
            exact congrArg Except.ok hmn
        · exfalso
          rcases h with h | h | h
          · exact h h1
          · exact h h2
          · exact Option.noConfusion h
    · refine ⟨fun n => ?_, fun _ => ⟨scriptLoadFailedMsg, ?_⟩⟩
      · rw [key, if_pos h1, if_neg h2]
        constructor
        · intro he
          exact Except.noConfusion he
        · intro he
          exact absurd he.2.1 h2
      · rw [key, if_pos h1, if_neg h2]
  · refine ⟨fun n => ?_, fun _ => ⟨scriptLoadFailedMsg, ?_⟩⟩
    · rw [key, if_neg h1]
      constructor
      · intro he
        exact Except.noConfusion he
      · intro he
        exact absurd he.1 h1
    · rw [key, if_neg h1]

/-- Witness for claim C6: the well-formed two-line reply parses to
registration number 7, and the three-field reply yields an error. -/
theorem claim6_witness :
    loadScript (Except.ok goodReply) = Except.ok 7 ∧
    (∃ e, loadScript (Except.ok threeFieldReply) = Except.error e) :=
  ⟨((claim6_theorem goodReply).1 7).mpr ⟨by decide, by decide, by decide⟩,
   (claim6_theorem threeFieldReply).2 (Or.inr (Or.inl (by decide)))⟩

/-- Claim C7: `GetEnvironment` always issues its queries in the fixed
order screens, desktops, windows (its trace is one of the three initial
segments of that order), and whenever the screens query succeeds and the
desktops query returns an error, that error is returned and the windows
query is never invoked. -/
theorem claim7_theorem
    (scrRes : Except GoStr (List (GoStr × Screen)))
    (dskRes : Except GoStr (List (GoStr × Desktop)))
    (winRes : List (GoStr × Desktop) → Except GoStr (List (GoStr × Window))) :
    ((getEnvironment scrRes dskRes winRes).2 = [EnvQuery.screens] ∨
     (getEnvironment scrRes dskRes winRes).2 = [EnvQuery.screens, EnvQuery.desktops] ∨
     (getEnvironment scrRes dskRes winRes).2 =
       [EnvQuery.screens, EnvQuery.desktops, EnvQuery.windows]) ∧
    (∀ s e, scrRes = Except.ok s → dskRes = Except.error e →
      (getEnvironment scrRes dskRes winRes).1 = Except.error e ∧
      EnvQuery.windows ∉ (getEnvironment scrRes dskRes winRes).2) := by
  cases scrRes with
  | error e0 =>
    refine ⟨Or.inl rfl, ?_⟩
    intro s e hs _
    exact Except.noConfusion hs
  | ok s0 =>
    cases dskRes with
    | error e0 =>
      refine ⟨Or.inr (Or.inl rfl), ?_⟩
      intro s e _ he
      injection he with he2
      subst he2
      refine ⟨rfl, ?_⟩
      show EnvQuery.windows ∉ [EnvQuery.screens, EnvQuery.desktops]
      decide
    | ok d0 =>
      cases hw : winRes d0 with
      | error e1 =>
        refine ⟨Or.inr (Or.inr ?_), ?_⟩
        · simp [getEnvironment, hw]
        · intro s e _ he
          exact Except.noConfusion he
      | ok w0 =>
        refine ⟨Or.inr (Or.inr ?_), ?_⟩
        · simp [getEnvironment, hw]
        · intro s e _ he
          exact Except.noConfusion he

/-- Witness for claim C7: a concrete run where screens succeed and
desktops fail with a concrete error short-circuits before windows. -/
theorem claim7_witness :
    (getEnvironment (Except.ok []) (Except.error (strOf ("desktops failed")))
        (fun _ => Except.ok [])).1 = Except.error (strOf ("desktops failed")) ∧
    EnvQuery.windows ∉
      (getEnvironment (Except.ok []) (Except.error (strOf ("desktops failed")))
        (fun _ => Except.ok [])).2 :=
  (claim7_theorem (Except.ok []) (Except.error (strOf ("desktops failed")))
      (fun _ => Except.ok [])).2 [] (strOf ("desktops failed")) rfl rfl

/-- Claim C8: whenever the underlying log-query process starts normally
but exits abnormally, `getJournal` (through `callProgramAndReadOutput`)
returns the error with a nil line slice — whatever partial output had been
captured on stdout or stderr is discarded, never returned. -/
theorem claim8_theorem (r : ProcRun) (e : GoStr)
    (h1 : r.cmdErr = none) (h2 : r.pipeErr = none) (h3 : r.startErr = none)
    (h4 : r.waitErr = some e) :
    callProgramAndReadOutput r = (none, some e) ∧ getJournal r = (none, some e) := by
  have hc : callProgramAndReadOutput r = (none, some e) := by
    unfold callProgramAndReadOutput
    rw [h1, h2, h3, h4]
  refine ⟨hc, ?_⟩
  unfold getJournal
  rw [hc]

/-- Witness for claim C8 at the concrete abnormal-exit process run that
had already captured two stdout lines. -/
theorem claim8_witness :
    callProgramAndReadOutput abnormalExitRun = (none, some (strOf ("exit status 1"))) ∧
    getJournal abnormalExitRun = (none, some (strOf ("exit status 1"))) :=
  claim8_theorem abnormalExitRun (strOf ("exit status 1")) rfl rfl rfl rfl

/-- Claim C9: the logging-prefix removal shared by the three query
operations replaces every occurrence of `"js: "` anywhere in a line. A
line without the substring is passed to decoding completely unchanged
(first conjunct); a line whose JSON payload itself contains `"js: "` has
the interior occurrence removed as well as the leading one (second
conjunct); and a line lacking the prefix entirely is still decoded rather
than rejected — `GetScreens` accepts it (third conjunct). -/
theorem claim9_theorem :
    (∀ s : GoStr, subOccurs jsTag s = false → stripTag s = s) ∧
    stripTag taggedScreenPayload = strOf ("\x7b\"name\": \"DP-1\"\x7d") ∧
    getScreensLoop decodeScreenSample [screenPayload] [] =
      Outcome.ok [(screenDP1.name, screenDP1)] := by
  refine ⟨?_, by decide, by decide⟩
  intro s h
  exact replFuel_no_occur jsTag [] s.length s h

/-- Witness for claim C9: a tag-free line is left unchanged by the
prefix-removal step. -/
theorem claim9_witness : stripTag (strOf ("abc")) = strOf ("abc") :=
  claim9_theorem.1 (strOf ("abc")) (by decide)

/-- Claim C10: `GetWindows` indexes the first whitespace-separated field
of the resolved process command line without checking one exists. At this
concrete input — a window whose `/proc` cmdline content is a single NUL
byte, hence empty after NUL-to-space translation and trimming — the
operation crashes with an out-of-range index instead of returning an
error. -/
theorem claim10_theorem :
    getProcessCmdLine procTableEmptyCmd 42 = some [] ∧
    getWindowsLoop decodeWindowSample procTableEmptyCmd none
      [jsTag ++ windowPayload] [] = Outcome.crashed indexCrashMsg := by
  refine ⟨by decide, by decide⟩

end GoKwin6
